import Mathlib

/-!
Verification development for the BERP pipeline (src/update_data.py and
src/build_site.py): a shallow embedding of the two pandas scripts, and
theorems settling the specified properties against it.

A DataFrame is embedded column-wise: a list of (column name, cell list)
pairs, in column order, as produced by `pd.DataFrame(records)`.  Cells are
either strings (as delivered by the upstream sheet) or rationals (after
numeric coercion); pandas floats are modelled exactly by `ℚ`, which is
faithful for every constant and test value appearing in the sources.
-/

set_option maxRecDepth 100000

attribute [local semireducible] Rat.add Rat.mul Rat.inv Rat.sub Rat.ofScientific

namespace BERP

/-- A DataFrame cell: raw sheet values are strings, coerced values rationals. -/
inductive Cell where
  | str : String → Cell
  | num : ℚ → Cell
  deriving DecidableEq, Repr

/-- A DataFrame, column-wise: `(column name, cells)` in column order. -/
abbrev Frame := List (String × List Cell)

/-- `df.columns`. -/
def names (f : Frame) : List String := f.map Prod.fst

/-- `df[c]` as a total read: the first column named `c`, `[]` if absent. -/
def getColD : Frame → String → List Cell
  | [], _ => []
  | (n, vs) :: rest, c => if n = c then vs else getColD rest c

/-- `df[c] = vs`: overwrite the column in place if present, else append it
at the end (pandas assignment semantics). -/
def setCol : Frame → String → List Cell → Frame
  | [], c, vs => [(c, vs)]
  | (n, ws) :: rest, c, vs =>
    if n = c then (c, vs) :: rest else (n, ws) :: setCol rest c vs

/-- Number of rows (length of the first column; 0 for an empty frame). -/
def nrows : Frame → Nat
  | [] => 0
  | (_, vs) :: _ => vs.length

/-- Surrounding-whitespace trim (Python `str.strip` on both ends). -/
def trimWS (s : String) : String :=
  String.mk (((s.data.dropWhile Char.isWhitespace).reverse.dropWhile Char.isWhitespace).reverse)

/-- `df.columns.str.strip()` (line 28 of update_data.py, line 29 of
build_site.py): trim surrounding whitespace from every header. -/
def stripHeaders (f : Frame) : Frame := f.map (fun p => (trimWS p.1, p.2))

/-- `df.drop(columns=['Company'])` guarded by membership (lines 35-36 of
update_data.py, 36-37 of build_site.py): removes every column named
exactly `Company`; a no-op when absent. -/
def dropCompany (f : Frame) : Frame := f.filter (fun p => p.1 != "Company")

/-- `str.replace(r'[$,%]', '', regex=True)`: delete every `$`, `,`, `%`. -/
def stripMoney (s : String) : String :=
  String.mk (s.data.filter (fun c => !(c == '$' || c == ',' || c == '%')))

/-- Value of a digit string, most significant first. -/
def digitsToNat (l : List Char) : Nat :=
  l.foldl (fun n c => n * 10 + (c.toNat - 48)) 0

/-- Split a character list at its first `.`: the part before, and the part
after when a dot exists. -/
def splitFrac : List Char → List Char × Option (List Char)
  | [] => ([], none)
  | c :: rest =>
    if c = '.' then ([], some rest)
    else
      let p := splitFrac rest
      (c :: p.1, p.2)

/-- Unsigned decimal literal: digits with at most one dot, at least one
digit overall. -/
def parseUnsigned (l : List Char) : Option ℚ :=
  match splitFrac l with
  | (w, none) =>
    if !w.isEmpty && w.all Char.isDigit then some (digitsToNat w : ℚ) else none
  | (w, some fr) =>
    if (!w.isEmpty || !fr.isEmpty) && w.all Char.isDigit && fr.all Char.isDigit
    then some ((digitsToNat w : ℚ) + (digitsToNat fr : ℚ) / (10 ^ fr.length : ℚ))
    else none

/-- Models `pd.to_numeric(·, errors='coerce')` on a single string: an
optionally signed decimal literal, surrounding whitespace ignored;
anything else (empty string, text such as `TBD`) yields `none` (NaN). -/
def parseNumQ (s : String) : Option ℚ :=
  match (trimWS s).data with
  | '-' :: rest => (parseUnsigned rest).map Neg.neg
  | '+' :: rest => parseUnsigned rest
  | l => parseUnsigned l

/-- One cell of `pd.to_numeric(col.astype(str).str.replace(r'[$,%]', '',
regex=True), errors='coerce').fillna(0)`: strip `$`/`,`/`%`, parse, NaN
becomes 0. -/
def coerceQ (s : String) : ℚ := (parseNumQ (stripMoney s)).getD 0

/-- The same coercion on a cell: a string cell is stripped and parsed, an
already numeric cell passes through unchanged (its `astype(str)` rendering
re-parses to itself and contains no `$`/`,`/`%`). -/
def coerceCellC : Cell → Cell
  | .str s => .num (coerceQ s)
  | .num q => .num q

/-- Numeric reading of a post-coercion cell (coerced cells are always
`num`; a stray string reads as 0). -/
def cellAsQ : Cell → ℚ
  | .str _ => 0
  | .num q => q

/-- A numeric column as rationals. -/
def colQ (f : Frame) (c : String) : List ℚ := (getColD f c).map cellAsQ

/-- One iteration of the cleaning loop (lines 55-58 of update_data.py,
42-46 of build_site.py): synthesize the column as zeros when absent, then
coerce it to numbers. -/
def coerceStep (f : Frame) (c : String) : Frame :=
  let f1 := if c ∈ names f then f else setCol f c (List.replicate (nrows f) (Cell.num 0))
  setCol f1 c ((getColD f1 c).map coerceCellC)

/-- `target_cols` of update_data.py (lines 40-53). -/
def target_cols : List String :=
  ["Gas Savings (MMBtu/yr)",
   "Electric Savings (kWh/yr)",
   "Total Cost Savings",
   "Implementation Costs",
   "Electricity Equivalent CO2 Savings - LOW (lb/year)",
   "Electricity Equivalent CO2 Savings - HIGH (lb/year)",
   "Electricity NOx Savings LOW (lb/yr)",
   "Electricity NOx Savings HIGH (lb/yr)",
   "Electricity SO2 Savings LOW",
   "Electricity SO2 Savings HIGH (lb/yr)",
   "Electricity PM2.5 Savings LOW (lb/yr)",
   "Electricity PM2.5 Savings HIGH (lb/yr)"]

/-- `input_cols` of build_site.py (line 40). -/
def input_cols : List String :=
  ["Gas Savings (MMBtu/yr)",
   "Electric Savings (kWh/yr)",
   "Total Cost Savings",
   "Implementation Costs",
   "Percent Progress"]

/-! ### Derived metrics (update_data.py, lines 60-99) -/

/-- Line 70: `Gas_CO2_lb = Gas Savings * 117.0`. -/
def gasCO2lbQ (gas : ℚ) : ℚ := gas * 117.0

/-- Lines 77-85 for one row: the low/high average, replaced by the
fallback `Electric Savings * 1.5` exactly when the average is 0 and the
electric savings are strictly positive (the boolean mask
`(Elec_CO2_Avg == 0) & (Electric Savings > 0)`). -/
def elecCO2AvgQ (low high elec : ℚ) : ℚ :=
  let avg := (low + high) / 2
  if avg = 0 ∧ 0 < elec then elec * 1.5 else avg

/-- Line 93: `Total_CO2_Tons = (Gas_CO2_lb + Elec_CO2_Avg) / 2000.0`. -/
def totalCO2TonsQ (gas low high elec : ℚ) : ℚ :=
  (gasCO2lbQ gas + elecCO2AvgQ low high elec) / 2000.0

/-- Line 99: `Cars_Equivalent = Total_CO2_Tons / 5.07`. -/
def carsEquivalentQ (gas low high elec : ℚ) : ℚ :=
  totalCO2TonsQ gas low high elec / 5.07

/-- Column write of a rational column. -/
def setColQ (f : Frame) (c : String) (qs : List ℚ) : Frame :=
  setCol f c (qs.map Cell.num)

/-- Elementwise binary column combination. -/
def zip2Q (a b : List ℚ) (g : ℚ → ℚ → ℚ) : List ℚ := List.zipWith g a b

/-- Elementwise ternary column combination. -/
def zip3Q (a b c : List ℚ) (g : ℚ → ℚ → ℚ → ℚ) : List ℚ :=
  List.zipWith (fun x p => g x p.1 p.2) a (List.zip b c)

/-- Lines 70-99 of update_data.py: the derived columns, each read back
from the evolving frame exactly as the script reads `df`. -/
def udDerive (f : Frame) : Frame :=
  let gas := colQ f "Gas Savings (MMBtu/yr)"
  let f := setColQ f "Gas_CO2_lb" (gas.map (· * 117.0))
  let f := setColQ f "Gas_NOx_lb" (gas.map (· * 0.092))
  let f := setColQ f "Gas_SO2_lb" (gas.map (· * 0.0006))
  let f := setColQ f "Gas_PM25_lb" (gas.map (· * 0.007))
  let f := setColQ f "Elec_CO2_Avg"
    (zip3Q (colQ f "Electricity Equivalent CO2 Savings - LOW (lb/year)")
           (colQ f "Electricity Equivalent CO2 Savings - HIGH (lb/year)")
           (colQ f "Electric Savings (kWh/yr)") elecCO2AvgQ)
  let f := setColQ f "Elec_NOx_Avg"
    (zip2Q (colQ f "Electricity NOx Savings LOW (lb/yr)")
           (colQ f "Electricity NOx Savings HIGH (lb/yr)") (fun a b => (a + b) / 2))
  let f := setColQ f "Elec_SO2_Avg"
    (zip2Q (colQ f "Electricity SO2 Savings LOW")
           (colQ f "Electricity SO2 Savings HIGH (lb/yr)") (fun a b => (a + b) / 2))
  let f := setColQ f "Elec_PM25_Avg"
    (zip2Q (colQ f "Electricity PM2.5 Savings LOW (lb/yr)")
           (colQ f "Electricity PM2.5 Savings HIGH (lb/yr)") (fun a b => (a + b) / 2))
  let f := setColQ f "Total_CO2_Tons"
    (zip2Q (colQ f "Gas_CO2_lb") (colQ f "Elec_CO2_Avg") (fun a b => (a + b) / 2000.0))
  let f := setColQ f "Total_NOx_lb"
    (zip2Q (colQ f "Gas_NOx_lb") (colQ f "Elec_NOx_Avg") (· + ·))
  let f := setColQ f "Total_SO2_lb"
    (zip2Q (colQ f "Gas_SO2_lb") (colQ f "Elec_SO2_Avg") (· + ·))
  let f := setColQ f "Total_PM25_lb"
    (zip2Q (colQ f "Gas_PM25_lb") (colQ f "Elec_PM25_Avg") (· + ·))
  setColQ f "Cars_Equivalent" ((colQ f "Total_CO2_Tons").map (· / 5.07))

/-! ### Metadata: Year and FIPS (update_data.py, lines 101-117) -/

/-- First run of four consecutive digits in the text, as a number —
the fallback regex `(\d{4})` of line 110. -/
def find4Digits : List Char → Option Nat
  | [] => none
  | c1 :: rest =>
    match rest with
    | c2 :: c3 :: c4 :: _ =>
      if c1.isDigit && c2.isDigit && c3.isDigit && c4.isDigit
      then some (digitsToNat [c1, c2, c3, c4])
      else find4Digits rest
    | _ => none

/-- Modelled from the library call `pd.to_datetime(·, errors='coerce')`
restricted to the year field: an ISO-formatted `YYYY-…` date yields its
leading four-digit year; other shapes fall through to the regex
fallback.  (No claim depends on the exact parseable-date set.) -/
def isoYear (s : String) : Option Nat :=
  match (trimWS s).data with
  | a :: b :: c :: d :: '-' :: _ =>
    if a.isDigit && b.isDigit && c.isDigit && d.isDigit
    then some (digitsToNat [a, b, c, d]) else none
  | _ => none

/-- Lines 104-110 for one cell: primary date parse, then the four-digit
regex fallback, then 0. -/
def yearOf (s : String) : Nat :=
  match isoYear s with
  | some y => y
  | none => (find4Digits s.data).getD 0

/-- `astype(str)` rendering of a cell. -/
def cellStr : Cell → String
  | .str s => s
  | .num q => toString q

/-- Lines 101-113: the `Year` column, from `Date of Assessment` when
present, otherwise constant 0.  (The temporary `Date_Obj` column is
created and dropped again inside the block; it never survives, so it is
not materialized here.) -/
def udYear (f : Frame) : Frame :=
  if "Date of Assessment" ∈ names f then
    setColQ f "Year" ((getColD f "Date of Assessment").map (fun c => (yearOf (cellStr c) : ℚ)))
  else
    setColQ f "Year" (List.replicate (nrows f) 0)

/-- Left-pad with zeros to width `w` (`str.zfill`); a leading sign stays
in front of the padding. -/
def zfill (w : Nat) (s : String) : String :=
  if w ≤ s.length then s
  else
    match s.data with
    | '-' :: rest => "-" ++ String.mk (List.replicate (w - s.length) '0') ++ String.mk rest
    | _ => String.mk (List.replicate (w - s.length) '0') ++ s

/-- `astype(int)` truncation toward zero of a pandas float. -/
def ratTrunc (q : ℚ) : ℤ := if q < 0 then -((-q).floor) else q.floor

/-- Line 117 for one string cell:
`to_numeric(·, errors='coerce').fillna(0).astype(int).astype(str).str.zfill(5)`. -/
def normFIPS (s : String) : String :=
  zfill 5 (toString (ratTrunc ((parseNumQ s).getD 0)))

/-- Line 117 on a cell of either shape. -/
def fipsOfCell : Cell → String
  | .str s => normFIPS s
  | .num q => zfill 5 (toString (ratTrunc q))

/-- Lines 116-117: rewrite the `FIPS` column in place when present. -/
def udFIPS (f : Frame) : Frame :=
  if "FIPS" ∈ names f then
    setCol f "FIPS" ((getColD f "FIPS").map (fun c => Cell.str (fipsOfCell c)))
  else f

/-- Sections 3 and 4 of update_data.py: sanitize headers, drop `Company`,
clean the `target_cols`. -/
def udClean (f : Frame) : Frame :=
  target_cols.foldl coerceStep (dropCompany (stripHeaders f))

/-- The whole update_data.py transform, fetch to JSON-ready frame
(sections 3-6). -/
def udProcess (f : Frame) : Frame := udFIPS (udYear (udDerive (udClean f)))

/-- Outcome of one script run: exit code, printed lines, and the artifact
written (`none` = nothing written, the previous artifact untouched). -/
structure RunResult where
  exitCode : Nat
  logs : List String
  artifact : Option Frame
  deriving DecidableEq

/-- Top-level control flow of update_data.py: the `GCP_SERVICE_ACCOUNT`
guard (lines 12-15), the fetch `try/except` (lines 23-32), and the export
(lines 119-123).  The upstream fetch is the external collaborator,
supplied as an `Except`: `.error` covers a throwing fetch or unparseable
content. -/
def updateDataMain (secret : Option String) (fetch : Except String Frame) : RunResult :=
  match secret with
  | none => ⟨1, ["Error: GCP_SERVICE_ACCOUNT secret is missing."], none⟩
  | some _ =>
    match fetch with
    | .error e => ⟨1, ["Error loading sheet: " ++ e], none⟩
    | .ok raw => ⟨0, ["Success: site_data.json saved."], some (udProcess raw)⟩

/-! ### build_site.py -/

/-- Line 61 for one row: the electric CO2 column is recomputed as
`Electric Savings (kWh/yr) * 1.5`, unconditionally. -/
def bsElecCO2High (elec : ℚ) : ℚ := elec * 1.5

/-- Sections 2-3 of build_site.py: sanitize headers, drop `Company`,
clean the `input_cols` (lines 29-46). -/
def bsClean (f : Frame) : Frame :=
  input_cols.foldl coerceStep (dropCompany (stripHeaders f))

/-- Lines 58-72 of build_site.py: the derived columns. -/
def bsDerive (f : Frame) : Frame :=
  let gas := colQ f "Gas Savings (MMBtu/yr)"
  let elec := colQ f "Electric Savings (kWh/yr)"
  let f := setColQ f "Gas Equivalent CO2 Savings (lb/yr)" (gas.map (· * 117.0))
  let f := setColQ f "Electricity Equivalent CO2 Savings - HIGH (lb/year)"
    (elec.map bsElecCO2High)
  let f := setColQ f "Equivalent CO2 (ton/yr)"
    (zip2Q (colQ f "Gas Equivalent CO2 Savings (lb/yr)")
           (colQ f "Electricity Equivalent CO2 Savings - HIGH (lb/year)")
           (fun a b => (a + b) / 2000.0))
  let f := setColQ f "Gas NOx Savings (lb/yr)" (gas.map (· * 0.092))
  setColQ f "Electricity NOx Savings HIGH (lb/yr)" (elec.map (· * 0.001))

/-- Sections 3-4 of build_site.py altogether. -/
def bsProcess (f : Frame) : Frame := bsDerive (bsClean f)

/-- The status column name of line 75. -/
def statusCol : String := "Implemented? Yes/No/In Progress"

/-- Boolean row mask `df[c] == v` (string comparison, as the sheet
delivers the status as text). -/
def eqMask (f : Frame) (c v : String) : List Bool :=
  (getColD f c).map (fun cell => cell == Cell.str v)

/-- Keep the cells whose mask bit is true (`df[mask]` on one column). -/
def maskKeep (m : List Bool) (vs : List Cell) : List Cell :=
  (m.zip vs).filterMap (fun p => if p.1 then some p.2 else none)

/-- `df[mask]`: boolean row selection on the whole frame. -/
def applyMask (f : Frame) (m : List Bool) : Frame :=
  f.map (fun p => (p.1, maskKeep m p.2))

/-- Lines 75-80: split into the implemented and the in-progress subset;
with no status column every row counts as implemented and the
in-progress subset is the empty frame `pd.DataFrame()`. -/
def segment (f : Frame) : Frame × Frame :=
  if statusCol ∈ names f then
    (applyMask f (eqMask f statusCol "Yes"), applyMask f (eqMask f statusCol "In Progress"))
  else (f, [])

/-- `df[c].sum()` on a numeric column. -/
def sumColQ (f : Frame) (c : String) : ℚ := (colQ f c).sum

/-- Lines 119-121: the three headline metrics over the implemented
subset. -/
def bsTotalCO2 (f : Frame) : ℚ := sumColQ (segment f).1 "Equivalent CO2 (ton/yr)"

def bsTotalDollars (f : Frame) : ℚ := sumColQ (segment f).1 "Total Cost Savings"

def bsTotalNOx (f : Frame) : ℚ :=
  sumColQ (segment f).1 "Gas NOx Savings (lb/yr)" +
  sumColQ (segment f).1 "Electricity NOx Savings HIGH (lb/yr)"

/-- The four columns of the top-N table (line 187). -/
def bsTableCols : List String :=
  ["Report Number", "Recommendation Name", "Equivalent CO2 (ton/yr)", "Total Cost Savings"]

/-- Rows of a frame restricted to the given columns, source order. -/
def rowsOf (f : Frame) (cols : List String) : List (List Cell) :=
  (List.range (nrows f)).map (fun i => cols.map (fun c => (getColD f c).getD i (Cell.str "")))

/-- Stable insertion into a list sorted descending by key. -/
def insertDesc (x : ℚ × List Cell) : List (ℚ × List Cell) → List (ℚ × List Cell)
  | [] => [x]
  | y :: ys => if y.1 < x.1 then x :: y :: ys else y :: insertDesc x ys

/-- Sort descending by key. -/
def sortDesc : List (ℚ × List Cell) → List (ℚ × List Cell)
  | [] => []
  | x :: xs => insertDesc x (sortDesc xs)

/-- Line 187: the implemented subset sorted by `Equivalent CO2 (ton/yr)`
descending, first 10 rows, projected to `bsTableCols`. -/
def bsTopRows (f : Frame) : List (List Cell) :=
  let impl := (segment f).1
  let keyed := (colQ impl "Equivalent CO2 (ton/yr)").zip (rowsOf impl bsTableCols)
  ((sortDesc keyed).take 10).map Prod.snd

/-- One HTML table cell / row / table for the top-N listing. -/
def htmlRow (cells : List Cell) : String :=
  "<tr>" ++ String.join (cells.map (fun c => "<td>" ++ cellStr c ++ "</td>")) ++ "</tr>"

def bsTableHtml (f : Frame) : String :=
  "<table class=\"table\"><tr>" ++
    String.join (bsTableCols.map (fun c => "<th>" ++ c ++ "</th>")) ++ "</tr>" ++
    String.join ((bsTopRows f).map htmlRow) ++ "</table>"

/-- The document up to the snapshot timestamp (lines 123-149; the static
CSS block carries no data and is elided). -/
def bsHtmlHead : String :=
  "<!DOCTYPE html>\n<html>\n<head>\n<title>BERP AR Tracking Dashboard</title>\n" ++
  "</head>\n<body>\n<div class=\"header\">\n<h1>BERP AR Tracking Dashboard</h1>\n" ++
  "<p>Snapshot Date: "

/-- The document after the snapshot timestamp (lines 150-192): metric
cards, charts over the computed columns, and the top-N table.  Number
rendering abstracts Python's format specifiers; chart internals are the
external collaborator and are represented by their data series. -/
def bsHtmlTail (f : Frame) : String :=
  let impl := (segment f).1
  "</p>\n</div>\n<div class=\"container\">\n" ++
  "<div class=\"metric-value\">" ++ toString (nrows impl) ++ "</div>" ++
  "<div class=\"metric-value\">" ++ toString (bsTotalCO2 f) ++ "</div>" ++
  "<div class=\"metric-value\">" ++ toString (bsTotalNOx f) ++ "</div>" ++
  "<div class=\"metric-value\">$" ++ toString (bsTotalDollars f) ++ "</div>" ++
  "<div class=\"chart\">" ++
    toString (sumColQ impl "Gas Equivalent CO2 Savings (lb/yr)") ++ "," ++
    toString (sumColQ impl "Electricity Equivalent CO2 Savings - HIGH (lb/year)") ++
  "</div>" ++
  bsTableHtml f ++ "\n</div>\n</body>\n</html>"

/-- Lines 123-193: the full HTML document for a processed frame and a
snapshot timestamp `now` (`datetime.now().strftime("%Y-%m-%d")`), which
appears at exactly one position, in the header. -/
def bsHtml (f : Frame) (now : String) : String := bsHtmlHead ++ now ++ bsHtmlTail f

/-- Top-level control flow of build_site.py, with the wall-clock date as
an explicit input: secret guard (lines 13-16), fetch `try/except`
(lines 24-33), report write (lines 195-197). -/
def buildSiteMain (secret : Option String) (fetch : Except String Frame) (now : String) :
    RunResult :=
  match secret with
  | none => ⟨1, ["Error: GCP_SERVICE_ACCOUNT secret is missing."], none⟩
  | some _ =>
    match fetch with
    | .error e => ⟨1, ["Error loading sheet: " ++ e], none⟩
    | .ok raw =>
      ⟨0, ["Report generated successfully."],
        some [("index.html", [Cell.str (bsHtml (bsProcess raw) now)])]⟩

/-! ### Column-tracking lemmas -/

/-- The column names written by lines 70-99 of update_data.py. -/
def udDerivedNames : List String :=
  ["Gas_CO2_lb", "Gas_NOx_lb", "Gas_SO2_lb", "Gas_PM25_lb",
   "Elec_CO2_Avg", "Elec_NOx_Avg", "Elec_SO2_Avg", "Elec_PM25_Avg",
   "Total_CO2_Tons", "Total_NOx_lb", "Total_SO2_lb", "Total_PM25_lb",
   "Cars_Equivalent"]

/-- The column names written by lines 58-72 of build_site.py. -/
def bsDerivedNames : List String :=
  ["Gas Equivalent CO2 Savings (lb/yr)",
   "Electricity Equivalent CO2 Savings - HIGH (lb/year)",
   "Equivalent CO2 (ton/yr)",
   "Gas NOx Savings (lb/yr)",
   "Electricity NOx Savings HIGH (lb/yr)"]

@[simp] theorem names_nil : names ([] : Frame) = [] := rfl

@[simp] theorem names_cons (n : String) (ws : List Cell) (rest : Frame) :
    names ((n, ws) :: rest) = n :: names rest := rfl

theorem mem_names_setCol (f : Frame) (c : String) (vs : List Cell) :
    c ∈ names (setCol f c vs) := by
  induction f with
  | nil => simp [setCol]
  | cons p rest ih =>
    obtain ⟨n, ws⟩ := p
    by_cases h : n = c
    · simp [setCol, h]
    · simp only [setCol, if_neg h, names_cons, List.mem_cons]
      exact Or.inr ih

theorem mem_names_setCol_of_mem {f : Frame} {d : String} (c : String) (vs : List Cell)
    (h : d ∈ names f) : d ∈ names (setCol f c vs) := by
  induction f with
  | nil => simp at h
  | cons p rest ih =>
    obtain ⟨n, ws⟩ := p
    rw [names_cons, List.mem_cons] at h
    by_cases hc : n = c
    · subst hc
      have hset : setCol ((n, ws) :: rest) n vs = (n, vs) :: rest := by simp [setCol]
      rcases h with h1 | h1
      · simp [hset, h1]
      · rw [hset, names_cons, List.mem_cons]
        exact Or.inr h1
    · rcases h with h1 | h1
      · simp [setCol, hc, h1]
      · simp only [setCol, if_neg hc, names_cons, List.mem_cons]
        exact Or.inr (ih h1)

theorem not_mem_names_setCol {f : Frame} {d c : String} (vs : List Cell)
    (h1 : d ∉ names f) (h2 : d ≠ c) : d ∉ names (setCol f c vs) := by
  induction f with
  | nil => simpa [setCol] using h2
  | cons p rest ih =>
    obtain ⟨n, ws⟩ := p
    rw [names_cons, List.mem_cons] at h1
    push_neg at h1
    by_cases hc : n = c
    · simp only [setCol, if_pos hc, names_cons, List.mem_cons]
      rintro (he | he)
      · exact h2 he
      · exact h1.2 he
    · simp only [setCol, if_neg hc, names_cons, List.mem_cons]
      rintro (he | he)
      · exact h1.1 he
      · exact ih h1.2 he

theorem getColD_setCol_self (f : Frame) (c : String) (vs : List Cell) :
    getColD (setCol f c vs) c = vs := by
  induction f with
  | nil => simp [setCol, getColD]
  | cons p rest ih =>
    obtain ⟨n, ws⟩ := p
    by_cases h : n = c
    · simp [setCol, h, getColD]
    · simpa [setCol, h, getColD] using ih

theorem getColD_setCol_ne (f : Frame) {d c : String} (vs : List Cell) (h : d ≠ c) :
    getColD (setCol f c vs) d = getColD f d := by
  induction f with
  | nil => simp [setCol, getColD, Ne.symm h]
  | cons p rest ih =>
    obtain ⟨n, ws⟩ := p
    by_cases hc : n = c
    · subst hc; simp [setCol, getColD, Ne.symm h]
    · by_cases hd : n = d
      · simp [setCol, hc, getColD, hd, h]
      · simpa [setCol, hc, getColD, hd] using ih

theorem getColD_setColQ_ne (f : Frame) {d c : String} (qs : List ℚ) (h : d ≠ c) :
    getColD (setColQ f c qs) d = getColD f d :=
  getColD_setCol_ne f _ h

theorem not_mem_names_dropCompany (f : Frame) : "Company" ∉ names (dropCompany f) := by
  induction f with
  | nil => simp [dropCompany]
  | cons p rest ih =>
    by_cases h : p.1 = "Company"
    · simpa [dropCompany, h] using ih
    · simp only [dropCompany, List.filter_cons] at ih ⊢
      have hb : (p.1 != "Company") = true := by simpa using h
      simp only [hb, if_true, names, List.map_cons, List.mem_cons]
      rintro (he | he)
      · exact h he.symm
      · exact ih he

theorem mem_names_coerceStep_self (f : Frame) (c : String) :
    c ∈ names (coerceStep f c) := mem_names_setCol _ _ _

theorem mem_names_coerceStep_of_mem {f : Frame} {d : String} (c : String)
    (h : d ∈ names f) : d ∈ names (coerceStep f c) := by
  unfold coerceStep
  by_cases hm : c ∈ names f
  · simpa [hm] using mem_names_setCol_of_mem _ _ h
  · simpa [hm] using
      mem_names_setCol_of_mem _ _ (mem_names_setCol_of_mem _ _ h)

theorem not_mem_names_coerceStep {f : Frame} {d c : String}
    (h1 : d ∉ names f) (h2 : d ≠ c) : d ∉ names (coerceStep f c) := by
  unfold coerceStep
  by_cases hm : c ∈ names f
  · simpa [hm] using not_mem_names_setCol _ h1 h2
  · simpa [hm] using not_mem_names_setCol _ (not_mem_names_setCol _ h1 h2) h2

theorem mem_names_foldl_coerceStep_of_mem {d : String} (cols : List String) :
    ∀ {f : Frame}, d ∈ names f → d ∈ names (cols.foldl coerceStep f) := by
  induction cols with
  | nil => intro f h; simpa using h
  | cons c cs ih =>
    intro f h
    exact ih (mem_names_coerceStep_of_mem c h)

theorem mem_names_foldl_coerceStep_self {d : String} (cols : List String) :
    ∀ {f : Frame}, d ∈ cols → d ∈ names (cols.foldl coerceStep f) := by
  induction cols with
  | nil => intro f h; simp at h
  | cons c cs ih =>
    intro f h
    rcases (by simpa using h : d = c ∨ d ∈ cs) with h1 | h1
    · subst h1
      exact mem_names_foldl_coerceStep_of_mem cs (mem_names_coerceStep_self f d)
    · exact ih h1

theorem not_mem_names_foldl_coerceStep {d : String} (cols : List String) :
    ∀ {f : Frame}, d ∉ names f → d ∉ cols → d ∉ names (cols.foldl coerceStep f) := by
  induction cols with
  | nil => intro f h _; simpa using h
  | cons c cs ih =>
    intro f h hc
    have hdc : d ≠ c := by intro he; exact hc (by simp [he])
    have hcs : d ∉ cs := by intro he; exact hc (by simp [he])
    exact ih (not_mem_names_coerceStep h hdc) hcs

theorem not_mem_names_udDerive {f : Frame} {c : String}
    (h : c ∉ names f) (hd : c ∉ udDerivedNames) : c ∉ names (udDerive f) := by
  simp only [udDerivedNames, List.mem_cons, List.not_mem_nil, or_false, not_or] at hd
  obtain ⟨h1, h2, h3, h4, h5, h6, h7, h8, h9, h10, h11, h12, h13⟩ := hd
  simp only [udDerive, setColQ]
  exact not_mem_names_setCol _ (not_mem_names_setCol _ (not_mem_names_setCol _
    (not_mem_names_setCol _ (not_mem_names_setCol _ (not_mem_names_setCol _
    (not_mem_names_setCol _ (not_mem_names_setCol _ (not_mem_names_setCol _
    (not_mem_names_setCol _ (not_mem_names_setCol _ (not_mem_names_setCol _
    (not_mem_names_setCol _ h h1) h2) h3) h4) h5) h6) h7) h8) h9) h10) h11) h12) h13

theorem getColD_udDerive_ne (f : Frame) {c : String} (hd : c ∉ udDerivedNames) :
    getColD (udDerive f) c = getColD f c := by
  simp only [udDerivedNames, List.mem_cons, List.not_mem_nil, or_false, not_or] at hd
  obtain ⟨h1, h2, h3, h4, h5, h6, h7, h8, h9, h10, h11, h12, h13⟩ := hd
  simp only [udDerive, setColQ]
  rw [getColD_setCol_ne _ _ h13, getColD_setCol_ne _ _ h12, getColD_setCol_ne _ _ h11,
    getColD_setCol_ne _ _ h10, getColD_setCol_ne _ _ h9, getColD_setCol_ne _ _ h8,
    getColD_setCol_ne _ _ h7, getColD_setCol_ne _ _ h6, getColD_setCol_ne _ _ h5,
    getColD_setCol_ne _ _ h4, getColD_setCol_ne _ _ h3, getColD_setCol_ne _ _ h2,
    getColD_setCol_ne _ _ h1]

theorem not_mem_names_bsDerive {f : Frame} {c : String}
    (h : c ∉ names f) (hd : c ∉ bsDerivedNames) : c ∉ names (bsDerive f) := by
  simp only [bsDerivedNames, List.mem_cons, List.not_mem_nil, or_false, not_or] at hd
  obtain ⟨h1, h2, h3, h4, h5⟩ := hd
  simp only [bsDerive, setColQ]
  exact not_mem_names_setCol _ (not_mem_names_setCol _ (not_mem_names_setCol _
    (not_mem_names_setCol _ (not_mem_names_setCol _ h h1) h2) h3) h4) h5

theorem getColD_bsDerive_ne (f : Frame) {c : String} (hd : c ∉ bsDerivedNames) :
    getColD (bsDerive f) c = getColD f c := by
  simp only [bsDerivedNames, List.mem_cons, List.not_mem_nil, or_false, not_or] at hd
  obtain ⟨h1, h2, h3, h4, h5⟩ := hd
  simp only [bsDerive, setColQ]
  rw [getColD_setCol_ne _ _ h5, getColD_setCol_ne _ _ h4, getColD_setCol_ne _ _ h3,
    getColD_setCol_ne _ _ h2, getColD_setCol_ne _ _ h1]

theorem mem_names_bsDerive_of_mem {f : Frame} {c : String}
    (h : c ∈ names f) : c ∈ names (bsDerive f) := by
  simp only [bsDerive, setColQ]
  exact mem_names_setCol_of_mem _ _ (mem_names_setCol_of_mem _ _
    (mem_names_setCol_of_mem _ _ (mem_names_setCol_of_mem _ _
      (mem_names_setCol_of_mem _ _ h))))

theorem bsDerivedNames_mem_names_bsDerive {f : Frame} {c : String}
    (h : c ∈ bsDerivedNames) : c ∈ names (bsDerive f) := by
  simp only [bsDerivedNames, List.mem_cons, List.not_mem_nil, or_false] at h
  simp only [bsDerive, setColQ]
  rcases h with h | h | h | h | h <;> subst h
  · exact mem_names_setCol_of_mem _ _ (mem_names_setCol_of_mem _ _
      (mem_names_setCol_of_mem _ _ (mem_names_setCol_of_mem _ _ (mem_names_setCol _ _ _))))
  · exact mem_names_setCol_of_mem _ _ (mem_names_setCol_of_mem _ _
      (mem_names_setCol_of_mem _ _ (mem_names_setCol _ _ _)))
  · exact mem_names_setCol_of_mem _ _ (mem_names_setCol_of_mem _ _ (mem_names_setCol _ _ _))
  · exact mem_names_setCol_of_mem _ _ (mem_names_setCol _ _ _)
  · exact mem_names_setCol _ _ _

theorem not_mem_names_udYear {f : Frame} {c : String}
    (h : c ∉ names f) (hy : c ≠ "Year") : c ∉ names (udYear f) := by
  unfold udYear
  by_cases hd : "Date of Assessment" ∈ names f <;>
    simp only [hd, if_true, if_false, setColQ, reduceIte] <;>
    exact not_mem_names_setCol _ h hy

theorem getColD_udYear_ne (f : Frame) {c : String} (hy : c ≠ "Year") :
    getColD (udYear f) c = getColD f c := by
  unfold udYear
  by_cases hd : "Date of Assessment" ∈ names f <;>
    simp only [hd, if_true, if_false, setColQ, reduceIte] <;>
    exact getColD_setCol_ne _ _ hy

theorem not_mem_names_udFIPS {f : Frame} {c : String}
    (h : c ∉ names f) : c ∉ names (udFIPS f) := by
  unfold udFIPS
  by_cases hd : "FIPS" ∈ names f
  · have hc : c ≠ "FIPS" := fun he => h (he ▸ hd)
    simp only [hd, if_true, reduceIte]
    exact not_mem_names_setCol _ h hc
  · simpa [hd] using h

theorem getColD_udFIPS_ne (f : Frame) {c : String} (hc : c ≠ "FIPS") :
    getColD (udFIPS f) c = getColD f c := by
  unfold udFIPS
  by_cases hd : "FIPS" ∈ names f
  · simp only [hd, if_true, reduceIte]
    exact getColD_setCol_ne _ _ hc
  · simp [hd]

/-- One full pipeline run on fetched input `f` at wall-clock date `now`:
the JSON artifact of update_data.py and the HTML document of
build_site.py.  Only build_site.py reads the clock (line 149); the JSON
path has no time input at all. -/
def pipelineRun (f : Frame) (now : String) : Option Frame × String :=
  ((updateDataMain (some "service-account") (.ok f)).artifact, bsHtml (bsProcess f) now)

/-! ### Claims -/

/-- C1 counterexample: a column named `company` — the sensitive column
cased differently — survives both sanitizers and is present in the
persisted JSON artifact, so the claim as stated (absence for inputs
where the column "appears with different casing") is false. -/
theorem company_case_variant_persists :
    "company" ∈ names (udProcess [("company", [Cell.str "Acme"])]) ∧
    (updateDataMain (some "svc") (.ok [("company", [Cell.str "Acme"])])).artifact =
      some (udProcess [("company", [Cell.str "Acme"])]) := by
  exact ⟨by decide, rfl⟩

/-- C1 (amended): the column named exactly `Company` (after header
whitespace trim) is absent from the JSON artifact's frame and from the
HTML report's frame and table columns, for every input — including
inputs where it is duplicated or holds null values; only a
differently-cased variant escapes the filter. -/
theorem company_column_absent (f : Frame) :
    "Company" ∉ names (udProcess f) ∧
    "Company" ∉ names (bsProcess f) ∧
    "Company" ∉ bsTableCols := by
  refine ⟨?_, ?_, by decide⟩
  · unfold udProcess udClean
    apply not_mem_names_udFIPS
    apply not_mem_names_udYear ?_ (by decide)
    apply not_mem_names_udDerive ?_ (by decide)
    apply not_mem_names_foldl_coerceStep _ ?_ (by decide)
    exact not_mem_names_dropCompany _
  · unfold bsProcess bsClean
    apply not_mem_names_bsDerive ?_ (by decide)
    apply not_mem_names_foldl_coerceStep _ ?_ (by decide)
    exact not_mem_names_dropCompany _

/-- C2: update_data.py implements the claimed rule on the spec's two
test vectors, but (a) build_site.py recomputes the electric CO2 column
as `Electric Savings * 1.5` unconditionally, overriding the supplied
pair (800, 1200) with 1500 instead of their mean 1000 — the divergence
the spec's design notes call a bug to resolve — and (b) update_data.py's
trigger is `mean = 0`, so a cancelling pair such as (-800, 800) is also
overridden. -/
theorem elec_co2_fallback_divergence :
    elecCO2AvgQ 0 0 1000 = 1500 ∧
    elecCO2AvgQ 800 1200 1000 = 1000 ∧
    bsElecCO2High 1000 = 1500 ∧
    getColD
      (bsProcess
        [("Electric Savings (kWh/yr)", [Cell.str "1000"]),
         ("Electricity Equivalent CO2 Savings - LOW (lb/year)", [Cell.str "800"]),
         ("Electricity Equivalent CO2 Savings - HIGH (lb/year)", [Cell.str "1200"])])
      "Electricity Equivalent CO2 Savings - HIGH (lb/year)" = [Cell.num 1500] ∧
    (1500 : ℚ) ≠ 1000 ∧
    elecCO2AvgQ (-800) 800 1000 = 1500 := by
  exact ⟨by decide, by decide, by decide, by decide, by decide, by decide⟩

/-- C3: the numeric coercion strips `$`, `%`, `,` and parses the rest,
with the spec's four example values; it is a total function on cells
(never throws) and preserves the number of rows of a column. -/
theorem numeric_coercion_examples_and_totality :
    coerceQ "$1,234.50" = 1234.5 ∧
    coerceQ "12%" = 12 ∧
    coerceQ "TBD" = 0 ∧
    coerceQ "" = 0 ∧
    (∀ s : String, coerceCellC (Cell.str s) = Cell.num (coerceQ s)) ∧
    (∀ col : List Cell, (col.map coerceCellC).length = col.length) := by
  refine ⟨by decide, by decide, by decide, by decide, fun s => rfl, fun col => by simp⟩

/-- C4 counterexample: an empty FIPS cell is coerced to NaN, filled with
0 and zero-padded, so the pipeline emits `"00000"` rather than leaving
the value empty — the claim as stated is false. -/
theorem fips_empty_becomes_zeros :
    normFIPS "" = "00000" ∧ "00000" ≠ "" := by
  exact ⟨by decide, by decide⟩

/-- C4 (amended): FIPS normalization maps `49035.0` to `"49035"` and
`1001` to `"01001"`; a frame with no FIPS column is left untouched (the
column stays absent), but an empty or unparseable FIPS cell becomes
`"00000"`, not the empty string. -/
theorem fips_normalization (f : Frame) :
    normFIPS "49035.0" = "49035" ∧
    normFIPS "1001" = "01001" ∧
    normFIPS "" = "00000" ∧
    ("FIPS" ∉ names f → udFIPS f = f) := by
  refine ⟨by decide, by decide, by decide, fun h => by simp [udFIPS, h]⟩

/-- C4 witness: the no-FIPS-column case at a concrete frame. -/
theorem fips_normalization_witness :
    udFIPS [("County", [Cell.str "Davis"])] = [("County", [Cell.str "Davis"])] :=
  (fips_normalization [("County", [Cell.str "Davis"])]).2.2.2 (by decide)

/-- C5: total CO2 tons is `(gas CO2 lb + electric CO2 lb) / 2000` and
the car equivalent is `tons / 5.07`; on the spec's vector (gas 100,
electric 1000, no pair) this gives 11700 lb, 6.6 tons and
220/169 ≈ 1.3018 cars, in the scalar rules and through both full
pipelines. -/
theorem total_co2_roundtrip (g l h e : ℚ) :
    totalCO2TonsQ g l h e = (gasCO2lbQ g + elecCO2AvgQ l h e) / 2000.0 ∧
    carsEquivalentQ g l h e = totalCO2TonsQ g l h e / 5.07 ∧
    gasCO2lbQ 100 = 11700 ∧
    totalCO2TonsQ 100 0 0 1000 = 6.6 ∧
    carsEquivalentQ 100 0 0 1000 = 220 / 169 ∧
    |carsEquivalentQ 100 0 0 1000 - 1.3018| < 0.0001 ∧
    getColD
      (udProcess [("Gas Savings (MMBtu/yr)", [Cell.str "100"]),
                  ("Electric Savings (kWh/yr)", [Cell.str "1000"])])
      "Total_CO2_Tons" = [Cell.num 6.6] ∧
    getColD
      (bsProcess [("Gas Savings (MMBtu/yr)", [Cell.str "100"]),
                  ("Electric Savings (kWh/yr)", [Cell.str "1000"])])
      "Equivalent CO2 (ton/yr)" = [Cell.num 6.6] := by
  exact ⟨rfl, rfl, by decide, by decide, by decide, by decide, by decide, by decide⟩

/-- C6 counterexample: `Report Number` is one of the columns the report
table reads, but the normalizer synthesizes only the numeric
`input_cols`, so on an input without that column the lookup target is
absent from the processed frame — the claim as stated is false. -/
theorem report_number_not_synthesized :
    "Report Number" ∈ bsTableCols ∧
    "Report Number" ∉ names (bsProcess []) := by
  exact ⟨by decide, by decide⟩

/-- C6 (amended): after normalization and derivation every column of the
fixed numeric `input_cols` list and every derived column is present in
the frame, for every input; columns outside those lists (such as
`Report Number`) are not synthesized. -/
theorem required_columns_synthesized (f : Frame) :
    (∀ c, c ∈ input_cols → c ∈ names (bsProcess f)) ∧
    (∀ c, c ∈ bsDerivedNames → c ∈ names (bsProcess f)) := by
  constructor
  · intro c hc
    unfold bsProcess bsClean
    exact mem_names_bsDerive_of_mem (mem_names_foldl_coerceStep_self _ hc)
  · intro c hc
    exact bsDerivedNames_mem_names_bsDerive hc

/-- C6 witness: a synthesized numeric column on the empty input. -/
theorem required_columns_synthesized_witness :
    "Percent Progress" ∈ names (bsProcess []) :=
  (required_columns_synthesized []).1 "Percent Progress" (by decide)

/-- C7 counterexample: a raw `Electricity Equivalent CO2 Savings - HIGH
(lb/year)` value of 800 supplied by the input is overwritten to 1500 by
the derivation step of build_site.py, so the engine is not purely
additive — the claim as stated is false. -/
theorem derive_overwrites_high_column :
    getColD
      (bsClean [("Electric Savings (kWh/yr)", [Cell.str "1000"]),
        ("Electricity Equivalent CO2 Savings - HIGH (lb/year)", [Cell.num 800])])
      "Electricity Equivalent CO2 Savings - HIGH (lb/year)" = [Cell.num 800] ∧
    getColD
      (bsDerive (bsClean [("Electric Savings (kWh/yr)", [Cell.str "1000"]),
        ("Electricity Equivalent CO2 Savings - HIGH (lb/year)", [Cell.num 800])]))
      "Electricity Equivalent CO2 Savings - HIGH (lb/year)" = [Cell.num 1500] ∧
    Cell.num 800 ≠ Cell.num 1500 := by
  exact ⟨by decide, by decide, by decide⟩

/-- C7 (amended): the derivation engines preserve every column outside
their write sets — build_site.py's engine rewrites exactly the five
`bsDerivedNames` (one of which, the electric CO2 HIGH column, is a raw
input column), and update_data.py's engine rewrites exactly the
`udDerivedNames`, `Year` and `FIPS`. -/
theorem derive_additive_except_overwrites (f : Frame) (c : String) :
    (c ∉ bsDerivedNames → getColD (bsDerive f) c = getColD f c) ∧
    (c ∉ udDerivedNames → c ≠ "Year" → c ≠ "FIPS" →
      getColD (udFIPS (udYear (udDerive f))) c = getColD f c) := by
  refine ⟨fun h => getColD_bsDerive_ne f h, fun h hy hf => ?_⟩
  rw [getColD_udFIPS_ne _ hf, getColD_udYear_ne _ hy, getColD_udDerive_ne _ h]

/-- C7 witness: a raw string column untouched by build_site.py's
derivation. -/
theorem derive_additive_except_overwrites_witness :
    getColD (bsDerive [("Recommendation Name", [Cell.str "LED retrofit"])])
      "Recommendation Name" =
    getColD [("Recommendation Name", [Cell.str "LED retrofit"])] "Recommendation Name" :=
  (derive_additive_except_overwrites [("Recommendation Name", [Cell.str "LED retrofit"])]
    "Recommendation Name").1 (by decide)

/-- C8: a missing `GCP_SERVICE_ACCOUNT` secret or a failed/unparseable
fetch exits with code 1, a descriptive message and no artifact written
(the previous artifact untouched); a successful run exits 0 after
writing the artifact. -/
theorem exit_code_contract :
    (∀ fetch : Except String Frame,
      updateDataMain none fetch =
        ⟨1, ["Error: GCP_SERVICE_ACCOUNT secret is missing."], none⟩) ∧
    (∀ fetch : Except String Frame, ∀ now : String,
      buildSiteMain none fetch now =
        ⟨1, ["Error: GCP_SERVICE_ACCOUNT secret is missing."], none⟩) ∧
    (∀ s e : String,
      updateDataMain (some s) (.error e) =
        ⟨1, ["Error loading sheet: " ++ e], none⟩) ∧
    (∀ (s : String) (raw : Frame),
      updateDataMain (some s) (.ok raw) =
        ⟨0, ["Success: site_data.json saved."], some (udProcess raw)⟩) :=
  ⟨fun _ => rfl, fun _ _ => rfl, fun _ _ => rfl, fun _ _ => rfl⟩

/-- C9: the JSON artifact of a run is a function of the fetched input
alone — two runs on byte-identical input at different wall-clock dates
produce the same frame, hence byte-identical serialization — and the
timestamp enters the HTML artifact at exactly one position, between the
fixed header and a tail that does not depend on it. -/
theorem timestamp_isolation (f : Frame) (now1 now2 : String) :
    (pipelineRun f now1).1 = (pipelineRun f now2).1 ∧
    (pipelineRun f now1).1 = some (udProcess f) ∧
    (pipelineRun f now1).2 = bsHtmlHead ++ now1 ++ bsHtmlTail (bsProcess f) := by
  exact ⟨rfl, rfl, rfl⟩

/-- C10: with no `Implemented? Yes/No/In Progress` column, the
implemented subset is the whole frame and the in-progress subset is
empty, so every headline metric (count, CO2, dollar and NOx sums) is
computed over all rows. -/
theorem status_absent_all_implemented (f : Frame) (h : statusCol ∉ names f) :
    segment f = (f, ([] : Frame)) ∧
    nrows (segment f).1 = nrows f ∧
    (∀ c, sumColQ (segment f).1 c = sumColQ f c) ∧
    bsTotalCO2 f = sumColQ f "Equivalent CO2 (ton/yr)" ∧
    bsTotalDollars f = sumColQ f "Total Cost Savings" ∧
    bsTotalNOx f = sumColQ f "Gas NOx Savings (lb/yr)" +
      sumColQ f "Electricity NOx Savings HIGH (lb/yr)" ∧
    nrows (segment f).2 = 0 := by
  have hs : segment f = (f, ([] : Frame)) := by simp [segment, h]
  refine ⟨hs, by rw [hs], fun c => by rw [hs], ?_, ?_, ?_, by rw [hs]; rfl⟩
  · simp [bsTotalCO2, hs]
  · simp [bsTotalDollars, hs]
  · simp [bsTotalNOx, hs]

/-- C10 witness: a two-row frame without the status column. -/
theorem status_absent_all_implemented_witness :
    segment [("Total Cost Savings", [Cell.num 5, Cell.num 7])] =
      ([("Total Cost Savings", [Cell.num 5, Cell.num 7])], ([] : Frame)) :=
  (status_absent_all_implemented [("Total Cost Savings", [Cell.num 5, Cell.num 7])]
    (by decide)).1

end BERP
